import Mathlib

/-!
Shallow embedding of `crypto/attachment.go` from gopenpgp: the streaming
attachment-encryption processor (`AttachmentProcessor`, `Process`, `Finish`,
`encryptAttachment`, `EncryptAttachment`, `EncryptAttachmentLowMemory`) and
the decryption path (`DecryptAttachment`).

External collaborators (`openpgp.Encrypt`, `openpgp.ReadMessage`,
`kr.Unlock`, and the repository function `SeparateKeyAndData`, which lives
outside this file set) are modelled abstractly as parameters: the theorems
quantify over any behaviour of those collaborators, constrained only by the
hypotheses stated in each theorem.

Byte sequences are modelled as `List Nat`.
-/

namespace Gopenpgp

/-- Byte sequences (Go `[]byte`). -/
abbrev Bytes := List Nat

/-- `models.EncryptedSplit`: the result of key/data separation.
`KeyPacket` and `DataPacket` are the two halves, `Algo` the symmetric
cipher identifier. -/
structure EncryptedSplit where
  keyPacket : Bytes
  dataPacket : Bytes
  algo : String
deriving Repr, DecidableEq

/-- `constants.AES256`: the fixed symmetric-cipher identifier assigned by the
background split task. -/
def AES256 : String := "aes256"

/-- The session state of an `AttachmentProcessor` (struct in the Go source):
`buffered` is the plaintext accepted by the encryption front-end so far
(all successful `Process` writes, in call order), `garbageCollector` the
memory-reclamation threshold, `err` the recorded error field, `split` the
captured split result, `taskStarted`/`taskFinished` track the background
goroutine (`done.Add(1)` / the deferred `done.Done()`), and
`pipeOpen`/`frontEndOpen` track the two closeable handles. -/
structure AttachmentProcessor where
  buffered : Bytes
  garbageCollector : Int
  err : Option String
  split : Option EncryptedSplit
  taskStarted : Bool
  taskFinished : Bool
  pipeOpen : Bool
  frontEndOpen : Bool
deriving Repr, DecidableEq

/-- Abstract behaviour of the external collaborators used on the encryption
side, for one fixed recipient key / configuration:
* `encryptOk` — whether `openpgp.Encrypt` succeeds in constructing the
  front-end (false models an invalid recipient key);
* `encryptErrMsg` — the error it returns when construction fails;
* `cipher` — the full ciphertext stream the front-end emits into the pipe
  for a given concatenated plaintext stream (writes plus the trailer flushed
  by `Close`);
* `separate` — `SeparateKeyAndData` on a full ciphertext stream, returning
  the Go pair `(*models.EncryptedSplit, error)` as
  `(Option EncryptedSplit, Option String)`;
* `writeErr` — the outcome of a front-end `Write` call (`none` = success). -/
structure EncEnv where
  encryptOk : Bool
  encryptErrMsg : String
  cipher : Bytes → Bytes
  separate : Bytes → Option EncryptedSplit × Option String
  writeErr : Option String

/-- The processor state as built by `encryptAttachment` before returning:
`done.Add(1)` has been called, the background goroutine has been started
(bound to the pipe's read end), and the conduit is open. -/
def initProcessor (garbageCollector : Int) : AttachmentProcessor :=
  { buffered := []
    garbageCollector := garbageCollector
    err := none
    split := none
    taskStarted := true
    taskFinished := false
    pipeOpen := true
    frontEndOpen := true }

/-- Observable setup steps of `encryptAttachment`, in program order. -/
inductive SetupEvent
  | startBackgroundTask
  | buildFrontEnd (ok : Bool)
deriving Repr, DecidableEq

/-- What a call to `encryptAttachment` produces: the Go return value
(`(*AttachmentProcessor, error)`), the session state that exists at return
time (also when it is not returned), and the ordered setup events. -/
structure SetupResult where
  result : Except String AttachmentProcessor
  session : AttachmentProcessor
  events : List SetupEvent
deriving Repr

/-- `encryptAttachment`: builds the processor, calls `done.Add(1)`, starts
the background goroutine on the pipe's read end, and only then calls
`openpgp.Encrypt` to construct the front-end; on construction failure it
returns the error (the already-started goroutine and the open pipe are left
behind in `session`). -/
def encryptAttachment (env : EncEnv) (garbageCollector : Int) : SetupResult :=
  let proc := initProcessor garbageCollector
  if env.encryptOk then
    { result := .ok proc
      session := proc
      events := [.startBackgroundTask, .buildFrontEnd true] }
  else
    { result := .error env.encryptErrMsg
      session := proc
      events := [.startBackgroundTask, .buildFrontEnd false] }

/-- Outcome of the background goroutine body once the full ciphertext
stream has been consumed: either it completes and records its result in the
session state, or it crashes dereferencing a nil `*EncryptedSplit`. -/
inductive TaskOutcome
  | completed (final : AttachmentProcessor)
  | nilDeref
deriving Repr, DecidableEq

/-- The body of the background goroutine in `encryptAttachment`, applied to
the pair returned by `SeparateKeyAndData`:

```
split, splitError := SeparateKeyAndData(nil, reader, estimatedSize, gc)
if attachmentProc.err != nil {
    attachmentProc.err = splitError
}
split.Algo = constants.AES256
attachmentProc.split = split
```

Note the guard tests the processor's (stale) `err` field, not `splitError`,
and the `split.Algo` assignment is unconditional. `taskFinished` models the
deferred `done.Done()`. -/
def runSplitTask (ap : AttachmentProcessor)
    (sep : Option EncryptedSplit × Option String) : TaskOutcome :=
  let split := sep.1
  let splitError := sep.2
  let ap1 := if ap.err.isSome then { ap with err := splitError } else ap
  match split with
  | none => .nilDeref
  | some s =>
      .completed { ap1 with
        split := some { s with algo := AES256 }
        taskFinished := true }

/-- Outcome of `Process`: the Go method returns nothing and panics when the
front-end write fails. -/
inductive ProcessOutcome
  | ok (ap : AttachmentProcessor)
  | panicked (e : String)
deriving Repr, DecidableEq

/-- `Process`: writes the chunk into the encryption front-end; a failed
write panics (`panic(err)`), a successful write appends the chunk to the
plaintext stream. -/
def Process (writeErr : Option String) (ap : AttachmentProcessor)
    (plainData : Bytes) : ProcessOutcome :=
  match writeErr with
  | some e => .panicked e
  | none => .ok { ap with buffered := ap.buffered ++ plainData }

/-- A sequence of `Process` calls, one per chunk, stopping at the first
panic. -/
def processChunks (writeErr : Option String) (ap : AttachmentProcessor) :
    List Bytes → ProcessOutcome
  | [] => .ok ap
  | c :: cs =>
      match Process writeErr ap c with
      | .panicked e => .panicked e
      | .ok ap1 => processChunks writeErr ap1 cs

/-- Observable actions of `Finish`, in program order. -/
inductive Action
  | closeFrontEnd
  | closePipe
  | waitDone
  | runGC
deriving Repr, DecidableEq

/-- `(*ap.w).Close()` followed by `(*ap.pipe).Close()`: the state change
performed by the two `Close` calls in `Finish`. -/
def closeHandles (ap : AttachmentProcessor) : AttachmentProcessor :=
  { ap with frontEndOpen := false, pipeOpen := false }

/-- Result of `Finish`: the early return of a previously recorded error, a
completed run returning the captured split (Go returns `ap.split, nil`), or
a crash of the whole program caused by the background task's nil
dereference. -/
inductive FinishOutcome
  | earlyErr (e : String)
  | finished (final : AttachmentProcessor)
  | crashed
deriving Repr, DecidableEq

/-- `Finish`:

```
if ap.err != nil { return nil, ap.err }
(*ap.w).Close()
(*ap.pipe).Close()
ap.done.Wait()
if ap.garbageCollector > 0 { runtime.GC() }
return ap.split, nil
```

Closing the front-end flushes the trailer, so the full ciphertext stream
read by the background task is `env.cipher ap.buffered`; `done.Wait()` joins
the task, whose body is `runSplitTask`. The returned trace lists the actions
performed, in order. The two `Close` calls are `closeHandles`. -/
def Finish (env : EncEnv) (ap : AttachmentProcessor) :
    FinishOutcome × List Action :=
  match ap.err with
  | some e => (.earlyErr e, [])
  | none =>
      match runSplitTask (closeHandles ap)
          (env.separate (env.cipher ap.buffered)) with
      | .nilDeref => (.crashed, [.closeFrontEnd, .closePipe, .waitDone])
      | .completed fin =>
          if ap.garbageCollector > 0 then
            (.finished fin, [.closeFrontEnd, .closePipe, .waitDone, .runGC])
          else
            (.finished fin, [.closeFrontEnd, .closePipe, .waitDone])

/-- Outcome of the one-shot `EncryptAttachment` (Go returns
`(*models.EncryptedSplit, error)`; a panic in `Process` or in the goroutine
crashes instead of returning). -/
inductive OneShotOutcome
  | ok (split : Option EncryptedSplit)
  | err (e : String)
  | panicked
deriving Repr, DecidableEq

/-- `EncryptAttachment`: one-shot entry point; builds a processor with
`garbageCollector = -1`, feeds the whole plaintext in one `Process` call,
then calls `Finish`. -/
def EncryptAttachment (env : EncEnv) (plainData : Bytes) : OneShotOutcome :=
  match (encryptAttachment env (-1)).result with
  | .error e => .err e
  | .ok ap =>
      match Process env.writeErr ap plainData with
      | .panicked _ => .panicked
      | .ok ap1 =>
          match Finish env ap1 with
          | (.earlyErr e, _) => .err e
          | (.crashed, _) => .panicked
          | (.finished fin, _) => .ok fin.split

/-- `EncryptAttachmentLowMemory`: returns the processor directly, with the
memory-reclamation threshold seeded to `1 << 20`. -/
def EncryptAttachmentLowMemory (env : EncEnv) :
    Except String AttachmentProcessor :=
  (encryptAttachment env ((1 : Int) <<< 20)).result

/-- The chunked streaming path: `EncryptAttachmentLowMemory`, then one
`Process` call per chunk, then `Finish`. -/
def streamingEncrypt (env : EncEnv) (chunks : List Bytes) : OneShotOutcome :=
  match EncryptAttachmentLowMemory env with
  | .error e => .err e
  | .ok ap =>
      match processChunks env.writeErr ap chunks with
      | .panicked _ => .panicked
      | .ok ap1 =>
          match Finish env ap1 with
          | (.earlyErr e, _) => .err e
          | (.crashed, _) => .panicked
          | (.finished fin, _) => .ok fin.split

/-- Abstract behaviour of the external collaborators used on the decryption
side, for one fixed key ring / passphrase:
* `unlock` — the result of `kr.Unlock([]byte(passphrase))`;
* `readMessage` — `openpgp.ReadMessage` on a ciphertext stream, returning
  the message's `UnverifiedBody` stream;
* `readAll` — `ioutil.ReadAll` on that body stream. -/
structure DecEnv where
  unlock : Option String
  readMessage : Bytes → Except String Bytes
  readAll : Bytes → Except String Bytes

/-- `DecryptAttachment`: unlocks the key ring (wrapping a failure with the
attachment-decryption context), concatenates `keyPacket` before
`dataPacket` into one stream (`io.MultiReader(keyReader, dataReader)`),
parses and decrypts it (`openpgp.ReadMessage`), and reads the decrypted
body to completion (`ioutil.ReadAll`). -/
def DecryptAttachment (env : DecEnv) (keyPacket dataPacket : Bytes) :
    Except String Bytes :=
  match env.unlock with
  | some e => .error ("gopenpgp: cannot decrypt attachment: " ++ e)
  | none =>
      match env.readMessage (keyPacket ++ dataPacket) with
      | .error e => .error e
      | .ok body =>
          match env.readAll body with
          | .error e => .error e
          | .ok b => .ok b

/-! ### Concrete instantiations of the external collaborators, used to
evaluate the theorems on closed inputs: a toy cipher that prepends a
one-byte session-key packet, the matching separator and message reader. -/

/-- A toy front-end cipher: the ciphertext stream is a one-byte key packet
`7` followed by the plaintext as data packet. -/
def testCipher : Bytes → Bytes := fun p => 7 :: p

/-- A toy `SeparateKeyAndData`: first byte is the key packet, the rest the
data packet; fails on an empty stream. -/
def testSeparate : Bytes → Option EncryptedSplit × Option String := fun s =>
  match s with
  | [] => (none, some "gopenpgp: empty message")
  | k :: rest => (some { keyPacket := [k], dataPacket := rest, algo := "" }, none)

/-- Encryption-side environment with a valid recipient key and healthy
pipe. -/
def testEnv : EncEnv :=
  { encryptOk := true
    encryptErrMsg := ""
    cipher := testCipher
    separate := testSeparate
    writeErr := none }

/-- Encryption-side environment in which `openpgp.Encrypt` fails to
construct the front-end (invalid recipient key). -/
def testEnvBadKey : EncEnv :=
  { testEnv with
    encryptOk := false
    encryptErrMsg := "gopenpgp: cannot set key: invalid key" }

/-- Decryption-side environment matching `testEnv`: unlock succeeds, the
reader strips the toy key-packet byte. -/
def testDecEnv : DecEnv :=
  { unlock := none
    readMessage := fun s =>
      match s with
      | 7 :: rest => .ok rest
      | _ => .error "gopenpgp: error in reading message"
    readAll := fun b => .ok b }

/-- Decryption-side environment in which unlocking the key ring fails
(wrong passphrase). -/
def testDecEnvLocked : DecEnv :=
  { testDecEnv with unlock := some "openpgp: invalid data" }

/-- A processor with the low-memory reclamation threshold and a previously
recorded error. -/
def gcErrProc : AttachmentProcessor :=
  { initProcessor ((1 : Int) <<< 20) with err := some "gopenpgp: malformed stream" }

/-! ### Theorems -/

/-- Any completed run of the background task has executed the deferred
`done.Done()`. -/
theorem runSplitTask_completed_taskFinished (ap : AttachmentProcessor)
    (sep : Option EncryptedSplit × Option String) (fin : AttachmentProcessor)
    (h : runSplitTask ap sep = .completed fin) : fin.taskFinished = true := by
  unfold runSplitTask at h
  cases hs : sep.1 with
  | none => rw [hs] at h; exact absurd h (by simp)
  | some s =>
      rw [hs] at h
      simp only [TaskOutcome.completed.injEq] at h
      rw [← h]

/-- Characterization of `Finish` on a processor with no recorded error:
it runs the close/close/wait sequence and dispatches on the background
task's outcome. -/
theorem Finish_err_none (env : EncEnv) (ap : AttachmentProcessor)
    (h : ap.err = none) :
    Finish env ap =
      match runSplitTask (closeHandles ap)
          (env.separate (env.cipher ap.buffered)) with
      | .nilDeref => (.crashed, [.closeFrontEnd, .closePipe, .waitDone])
      | .completed fin =>
          if ap.garbageCollector > 0 then
            (.finished fin, [.closeFrontEnd, .closePipe, .waitDone, .runGC])
          else
            (.finished fin, [.closeFrontEnd, .closePipe, .waitDone]) := by
  unfold Finish
  rw [h]

/-- Claim C9: if the write into the encryption front-end fails, `Process`
panics with that error — a fatal, unrecoverable outcome for the session —
and never continues as if the write had succeeded. -/
theorem process_write_failure_panics (ap : AttachmentProcessor)
    (chunk : Bytes) (e : String) :
    Process (some e) ap chunk = .panicked e ∧
    ∀ ap1, Process (some e) ap chunk ≠ .ok ap1 := by
  refine ⟨rfl, ?_⟩
  intro ap1 h
  simp [Process] at h

/-- Claim C10: when `SeparateKeyAndData` returns a nil split together with
an error, the background task does not skip its post-processing: it still
executes `split.Algo = constants.AES256`, dereferencing the nil split (a
crash), and in particular never completes normally. -/
theorem splitTask_nil_split_deref (ap : AttachmentProcessor) (e : String) :
    runSplitTask ap (none, some e) = .nilDeref ∧
    ∀ fin, runSplitTask ap (none, some e) ≠ .completed fin := by
  refine ⟨rfl, ?_⟩
  intro fin h
  simp [runSplitTask] at h

/-- Claim C2 (code evaluation): when the processor has no previously
recorded error — the only state reachable in practice — the background
task drops a separation error instead of storing it: the guard reads the
stale `err` field, so the completed state still carries `err = none` (and
`Finish` consequently cannot return the separation error). -/
theorem splitTask_drops_error (ap : AttachmentProcessor) (s : EncryptedSplit)
    (e : String) (h : ap.err = none) :
    runSplitTask ap (some s, some e) =
      .completed { ap with
        split := some { s with algo := AES256 }
        taskFinished := true } ∧
    ∀ fin, runSplitTask ap (some s, some e) = .completed fin →
      fin.err = none := by
  constructor
  · simp [runSplitTask, h]
  · intro fin hfin
    simp [runSplitTask, h] at hfin
    rw [← hfin]

/-- Witness for `splitTask_drops_error` at a concrete state: a fresh
processor and a separator that reports a malformed stream. -/
theorem splitTask_drops_error_witness :
    (initProcessor (-1)).err = none ∧
    ∀ fin, runSplitTask (initProcessor (-1))
        (some ⟨[1], [2], ""⟩, some "gopenpgp: malformed stream") =
        .completed fin → fin.err = none :=
  ⟨rfl, (splitTask_drops_error (initProcessor (-1)) ⟨[1], [2], ""⟩
    "gopenpgp: malformed stream" rfl).2⟩

/-- Claim C4: if the processor's recorded error field is non-nil, `Finish`
returns that error immediately, performs none of the close/wait actions,
and — being independent of the environment and leaving the state
untouched — behaves identically on a repeated call. -/
theorem finish_prior_error_idempotent (env env' : EncEnv)
    (ap : AttachmentProcessor) (e : String) (h : ap.err = some e) :
    Finish env ap = (.earlyErr e, []) ∧ Finish env' ap = (.earlyErr e, []) := by
  constructor <;> simp [Finish, h]

/-- Witness for `finish_prior_error_idempotent`: a processor carrying a
recorded error, finished twice under two different environments. -/
theorem finish_prior_error_idempotent_witness :
    ({ initProcessor (-1) with err := some "boom" } :
        AttachmentProcessor).err = some "boom" ∧
    Finish testEnv { initProcessor (-1) with err := some "boom" } =
      (.earlyErr "boom", []) ∧
    Finish testEnvBadKey { initProcessor (-1) with err := some "boom" } =
      (.earlyErr "boom", []) :=
  ⟨rfl,
    (finish_prior_error_idempotent testEnv testEnvBadKey
      { initProcessor (-1) with err := some "boom" } "boom" rfl).1,
    (finish_prior_error_idempotent testEnv testEnvBadKey
      { initProcessor (-1) with err := some "boom" } "boom" rfl).2⟩

/-- Claim C5: with no prior recorded error, `Finish` closes the encryption
front-end, then the conduit's write-end, then waits for the background
task — in exactly that order — and whenever it returns the split result
the background task has executed its completion signal. -/
theorem finish_close_order_and_join (env : EncEnv) (ap : AttachmentProcessor)
    (h : ap.err = none) :
    (Finish env ap).2.take 3 =
      [Action.closeFrontEnd, Action.closePipe, Action.waitDone] ∧
    ∀ fin, (Finish env ap).1 = .finished fin → fin.taskFinished = true := by
  rw [Finish_err_none env ap h]
  cases hr : runSplitTask (closeHandles ap)
      (env.separate (env.cipher ap.buffered)) with
  | nilDeref => exact ⟨rfl, by intro fin hfin; simp at hfin⟩
  | completed fin0 =>
      by_cases hgc : ap.garbageCollector > 0
      · refine ⟨by simp [hgc], ?_⟩
        intro fin hfin
        simp [hgc] at hfin
        exact hfin ▸ runSplitTask_completed_taskFinished _ _ _ hr
      · refine ⟨by simp [hgc], ?_⟩
        intro fin hfin
        simp [hgc] at hfin
        exact hfin ▸ runSplitTask_completed_taskFinished _ _ _ hr

/-- The final state of a successful `Finish testEnv (initProcessor (-1))`
run: pipeline drained, both handles closed, background task joined. -/
def finW : AttachmentProcessor :=
  { buffered := []
    garbageCollector := -1
    err := none
    split := some { keyPacket := [7], dataPacket := [], algo := AES256 }
    taskStarted := true
    taskFinished := true
    pipeOpen := false
    frontEndOpen := false }

/-- Witness for `finish_close_order_and_join` on a fresh processor under
the concrete environment: the action order is observed and the joined
state has `taskFinished`. -/
theorem finish_close_order_and_join_witness :
    (initProcessor (-1)).err = none ∧
    (Finish testEnv (initProcessor (-1))).2.take 3 =
      [Action.closeFrontEnd, Action.closePipe, Action.waitDone] ∧
    finW.taskFinished = true :=
  ⟨rfl, (finish_close_order_and_join testEnv (initProcessor (-1)) rfl).1,
    (finish_close_order_and_join testEnv (initProcessor (-1)) rfl).2 finW
      (by decide)⟩

/-- Counterexample to claim C3 as stated: with an invalid recipient key the
error is indeed returned, but the background split task has already been
started (the start event precedes the front-end construction event) and at
return time it is neither joined nor signalled end-of-stream — the task is
leaked, contradicting "no background split task is started or leaked". -/
theorem encryptAttachment_task_started_on_failure_cex :
    (encryptAttachment testEnvBadKey (-1)).result =
      .error "gopenpgp: cannot set key: invalid key" ∧
    (encryptAttachment testEnvBadKey (-1)).events =
      [SetupEvent.startBackgroundTask, SetupEvent.buildFrontEnd false] ∧
    (encryptAttachment testEnvBadKey (-1)).session.taskStarted = true ∧
    (encryptAttachment testEnvBadKey (-1)).session.taskFinished = false ∧
    (encryptAttachment testEnvBadKey (-1)).session.pipeOpen = true :=
  ⟨rfl, rfl, rfl, rfl, rfl⟩

/-- Claim C3 as amended: when front-end construction fails the error is
returned synchronously, but the background split task has already been
started — unconditionally, before `openpgp.Encrypt` is called — and is
left unjoined with the conduit's write-end still open (a leaked task). -/
theorem encryptAttachment_failure_sync_task_leaked (env : EncEnv) (gc : Int)
    (h : env.encryptOk = false) :
    (encryptAttachment env gc).result = .error env.encryptErrMsg ∧
    (encryptAttachment env gc).events =
      [SetupEvent.startBackgroundTask, SetupEvent.buildFrontEnd false] ∧
    (encryptAttachment env gc).session.taskStarted = true ∧
    (encryptAttachment env gc).session.taskFinished = false ∧
    (encryptAttachment env gc).session.pipeOpen = true := by
  simp [encryptAttachment, initProcessor, h]

/-- Witness for `encryptAttachment_failure_sync_task_leaked` at the
concrete invalid-key environment. -/
theorem encryptAttachment_failure_sync_task_leaked_witness :
    testEnvBadKey.encryptOk = false ∧
    (encryptAttachment testEnvBadKey (-1)).result =
      .error testEnvBadKey.encryptErrMsg ∧
    (encryptAttachment testEnvBadKey (-1)).events =
      [SetupEvent.startBackgroundTask, SetupEvent.buildFrontEnd false] ∧
    (encryptAttachment testEnvBadKey (-1)).session.taskStarted = true ∧
    (encryptAttachment testEnvBadKey (-1)).session.taskFinished = false ∧
    (encryptAttachment testEnvBadKey (-1)).session.pipeOpen = true :=
  ⟨rfl, encryptAttachment_failure_sync_task_leaked testEnvBadKey (-1) rfl⟩

/-- Counterexample to claim C8 as stated: for a processor whose recorded
error is non-nil and whose reclamation threshold is `1 << 20`, `Finish`
returns early and performs no reclamation pass although the threshold is
positive — so "`Finish` triggers a reclamation pass iff the threshold is
positive" fails for this processor. -/
theorem finish_gc_iff_cex :
    gcErrProc.garbageCollector > 0 ∧
    ¬ (Action.runGC ∈ (Finish testEnv gcErrProc).2 ↔
        gcErrProc.garbageCollector > 0) := by
  constructor <;> decide

/-- Claim C8 as amended: `EncryptAttachmentLowMemory` seeds the
reclamation threshold to exactly `1 << 20 = 2 ^ 20` bytes (1 MiB), and
whenever `Finish` runs to completion and returns the split result, it has
performed a reclamation pass iff the processor's threshold is positive (a
`Finish` call that returns a previously recorded error performs none). -/
theorem lowMemory_threshold_and_gc (env : EncEnv)
    (ap fin : AttachmentProcessor) (tr : List Action)
    (h1 : env.encryptOk = true)
    (h2 : Finish env ap = (.finished fin, tr)) :
    (EncryptAttachmentLowMemory env = .ok (initProcessor ((1 : Int) <<< 20)) ∧
     (initProcessor ((1 : Int) <<< 20)).garbageCollector = 2 ^ 20) ∧
    (Action.runGC ∈ tr ↔ ap.garbageCollector > 0) := by
  constructor
  · refine ⟨?_, by decide⟩
    simp [EncryptAttachmentLowMemory, encryptAttachment, h1]
  · cases he : ap.err with
    | some e =>
        unfold Finish at h2
        rw [he] at h2
        simp at h2
    | none =>
        rw [Finish_err_none env ap he] at h2
        cases hr : runSplitTask (closeHandles ap)
            (env.separate (env.cipher ap.buffered)) with
        | nilDeref => rw [hr] at h2; simp at h2
        | completed fin0 =>
            rw [hr] at h2
            by_cases hgc : ap.garbageCollector > 0
            · simp only [if_pos hgc, Prod.mk.injEq] at h2
              rw [← h2.2]
              simp [hgc]
            · simp only [if_neg hgc, Prod.mk.injEq] at h2
              rw [← h2.2]
              simp [hgc]

/-- The final state of a successful `Finish` on a fresh low-memory
processor under the concrete environment. -/
def finLowW : AttachmentProcessor :=
  { buffered := []
    garbageCollector := (1 : Int) <<< 20
    err := none
    split := some { keyPacket := [7], dataPacket := [], algo := AES256 }
    taskStarted := true
    taskFinished := true
    pipeOpen := false
    frontEndOpen := false }

/-- Witness for `lowMemory_threshold_and_gc` on a fresh low-memory
processor under the concrete environment: the reclamation pass is in the
trace and the threshold is positive. -/
theorem lowMemory_threshold_and_gc_witness :
    testEnv.encryptOk = true ∧
    Finish testEnv (initProcessor ((1 : Int) <<< 20)) =
      (.finished finLowW, [Action.closeFrontEnd, Action.closePipe,
        Action.waitDone, Action.runGC]) ∧
    (EncryptAttachmentLowMemory testEnv =
        .ok (initProcessor ((1 : Int) <<< 20)) ∧
      (initProcessor ((1 : Int) <<< 20)).garbageCollector = 2 ^ 20) ∧
    (Action.runGC ∈ [Action.closeFrontEnd, Action.closePipe,
        Action.waitDone, Action.runGC] ↔
      (initProcessor ((1 : Int) <<< 20)).garbageCollector > 0) :=
  ⟨rfl, by decide,
    (lowMemory_threshold_and_gc testEnv (initProcessor ((1 : Int) <<< 20))
      finLowW [Action.closeFrontEnd, Action.closePipe, Action.waitDone,
        Action.runGC] rfl (by decide)).1,
    (lowMemory_threshold_and_gc testEnv (initProcessor ((1 : Int) <<< 20))
      finLowW [Action.closeFrontEnd, Action.closePipe, Action.waitDone,
        Action.runGC] rfl (by decide)).2⟩

/-- Claim C6: `DecryptAttachment` with an unlockable key ring operates on
the single logical stream `keyPacket ++ dataPacket` (key packet first): it
succeeds with `b` exactly when parsing that stream succeeds and reading the
decrypted body to completion yields `b`, and it propagates a parse error or
a body-read error. -/
theorem decryptAttachment_assembles_and_reads (env : DecEnv)
    (kp dp : Bytes) (h : env.unlock = none) :
    (∀ b : Bytes, DecryptAttachment env kp dp = .ok b ↔
        ∃ body, env.readMessage (kp ++ dp) = .ok body ∧
          env.readAll body = .ok b) ∧
    (∀ e, env.readMessage (kp ++ dp) = .error e →
        DecryptAttachment env kp dp = .error e) ∧
    (∀ body e, env.readMessage (kp ++ dp) = .ok body →
        env.readAll body = .error e →
        DecryptAttachment env kp dp = .error e) := by
  refine ⟨?_, ?_, ?_⟩
  · intro b
    constructor
    · intro hb
      unfold DecryptAttachment at hb
      rw [h] at hb
      cases hm : env.readMessage (kp ++ dp) with
      | error e => simp [hm] at hb
      | ok body =>
          cases ha : env.readAll body with
          | error e => simp [hm, ha] at hb
          | ok b0 =>
              simp [hm, ha] at hb
              exact ⟨body, rfl, by rw [ha, hb]⟩
    · rintro ⟨body, hm, ha⟩
      simp [DecryptAttachment, h, hm, ha]
  · intro e hm
    simp [DecryptAttachment, h, hm]
  · intro body e hm ha
    simp [DecryptAttachment, h, hm, ha]

/-- Witness for `decryptAttachment_assembles_and_reads` in the concrete
environment: the toy key packet `[7]` followed by data `[1, 2]` decrypts to
`[1, 2]`. -/
theorem decryptAttachment_assembles_and_reads_witness :
    testDecEnv.unlock = none ∧
    DecryptAttachment testDecEnv [7] [1, 2] = .ok [1, 2] :=
  ⟨rfl, ((decryptAttachment_assembles_and_reads testDecEnv [7] [1, 2]
      rfl).1 [1, 2]).mpr ⟨[1, 2], rfl, rfl⟩⟩

/-- Claim C7: if unlocking the key ring fails, `DecryptAttachment` returns
that error wrapped with the attachment-decryption context; the result does
not depend on the message reader at all (no parsing occurs) and is never a
plaintext. -/
theorem decryptAttachment_wrong_passphrase (env : DecEnv) (kp dp : Bytes)
    (e : String) (h : env.unlock = some e) :
    (∀ env' : DecEnv, env'.unlock = env.unlock →
        DecryptAttachment env' kp dp =
          .error ("gopenpgp: cannot decrypt attachment: " ++ e)) ∧
    (∀ b, DecryptAttachment env kp dp ≠ .ok b) := by
  have hmain : ∀ env' : DecEnv, env'.unlock = env.unlock →
      DecryptAttachment env' kp dp =
        .error ("gopenpgp: cannot decrypt attachment: " ++ e) := by
    intro env' h'
    unfold DecryptAttachment
    rw [h', h]
  refine ⟨hmain, ?_⟩
  intro b hb
  rw [hmain env rfl] at hb
  simp at hb

/-- Witness for `decryptAttachment_wrong_passphrase` in the concrete
locked environment. -/
theorem decryptAttachment_wrong_passphrase_witness :
    testDecEnvLocked.unlock = some "openpgp: invalid data" ∧
    DecryptAttachment testDecEnvLocked [7] [1, 2] =
      .error ("gopenpgp: cannot decrypt attachment: " ++
        "openpgp: invalid data") :=
  ⟨rfl, (decryptAttachment_wrong_passphrase testDecEnvLocked [7] [1, 2]
      "openpgp: invalid data" rfl).1 testDecEnvLocked rfl⟩

/-- With a healthy pipe, a sequence of `Process` calls appends the chunks
to the plaintext stream in call order. -/
theorem processChunks_ok (ap : AttachmentProcessor) (cs : List Bytes) :
    processChunks none ap cs =
      .ok { ap with buffered := ap.buffered ++ cs.flatten } := by
  induction cs generalizing ap with
  | nil => simp [processChunks]
  | cons c cs ih => simp [processChunks, Process, ih, List.append_assoc]

/-- Claim C1: round trip. Under the contracts of the external
collaborators — front-end construction succeeds for the valid recipient
key, pipe writes succeed, `SeparateKeyAndData` splits the ciphertext of `P`
into two halves whose concatenation is that ciphertext, the key ring
unlocks, and parsing plus reading the decrypted body inverts the cipher —
the one-shot `EncryptAttachment` returns the split (with the algorithm
stamped `aes256`) and `DecryptAttachment` on its two packets returns
exactly `P`; the chunked streaming path returns the same split for every
chunking of `P`, so its decryption also returns `P`. -/
theorem attachment_round_trip (env : EncEnv) (denv : DecEnv) (P : Bytes)
    (s : EncryptedSplit) (body : Bytes)
    (h1 : env.encryptOk = true) (h2 : env.writeErr = none)
    (h3 : env.separate (env.cipher P) = (some s, none))
    (h4 : s.keyPacket ++ s.dataPacket = env.cipher P)
    (h5 : denv.unlock = none)
    (h6 : denv.readMessage (env.cipher P) = .ok body)
    (h7 : denv.readAll body = .ok P) :
    (EncryptAttachment env P = .ok (some { s with algo := AES256 }) ∧
     DecryptAttachment denv s.keyPacket s.dataPacket = .ok P) ∧
    (∀ chunks : List Bytes, chunks.flatten = P →
        streamingEncrypt env chunks = .ok (some { s with algo := AES256 })) := by
  have hdec : DecryptAttachment denv s.keyPacket s.dataPacket = .ok P := by
    simp [DecryptAttachment, h5, h4, h6, h7]
  refine ⟨⟨?_, hdec⟩, ?_⟩
  · simp [EncryptAttachment, encryptAttachment, h1, Process, h2, Finish,
      runSplitTask, closeHandles, initProcessor, h3,
      show ¬((-1 : Int) > 0) by decide]
  · intro chunks hch
    simp [streamingEncrypt, EncryptAttachmentLowMemory, encryptAttachment,
      h1, h2, processChunks_ok, hch, Finish, runSplitTask, closeHandles,
      initProcessor, h3, show ((1 : Int) <<< 20) > 0 by decide]

/-- Witness for `attachment_round_trip` in the concrete environment:
`P = [1, 2, 3]`, toy split `([7], [1, 2, 3])`; the one-shot path, the
decryption of its split, and the streaming path over the chunking
`[[1], [2, 3]]` all agree. -/
theorem attachment_round_trip_witness :
    testEnv.encryptOk = true ∧
    EncryptAttachment testEnv [1, 2, 3] =
      .ok (some ⟨[7], [1, 2, 3], AES256⟩) ∧
    DecryptAttachment testDecEnv [7] [1, 2, 3] = .ok [1, 2, 3] ∧
    streamingEncrypt testEnv [[1], [2, 3]] =
      .ok (some ⟨[7], [1, 2, 3], AES256⟩) :=
  ⟨rfl,
    (attachment_round_trip testEnv testDecEnv [1, 2, 3]
      { keyPacket := [7], dataPacket := [1, 2, 3], algo := "" } [1, 2, 3]
      rfl rfl rfl rfl rfl rfl rfl).1.1,
    (attachment_round_trip testEnv testDecEnv [1, 2, 3]
      { keyPacket := [7], dataPacket := [1, 2, 3], algo := "" } [1, 2, 3]
      rfl rfl rfl rfl rfl rfl rfl).1.2,
    (attachment_round_trip testEnv testDecEnv [1, 2, 3]
      { keyPacket := [7], dataPacket := [1, 2, 3], algo := "" } [1, 2, 3]
      rfl rfl rfl rfl rfl rfl rfl).2 [[1], [2, 3]] rfl⟩

end Gopenpgp
